import Mathlib

/-!
Verification of the masked-matrix reference reducer of `pgl-cnv-analysis`.

Shallow embedding of `src/create_curated_reference.py` (the Bin-Compatibility
Validator `validate_compatibility` and the Masked Reference Reducer
`build_reference_matrix`) and of `test/validate_cnv_reference.py`
(`validate_reference`).

Modelling conventions:
* Machine floats are modelled by exact rationals `ℚ`; `float32` rounding is
  out of scope of the structural claims treated here.
* The IEEE NaN sentinel ("no data") is modelled by `Option ℚ`
  (`none` = NaN); `np.nanmean` / `np.nanstd` skip `none` cells exactly as
  numpy skips NaNs, and an all-NaN reduction yields `none`.
* The square root used by `np.nanstd` is not rational-valued, so the whole
  development is parametrised by a function `sqrtQ : ℚ → ℚ` standing for the
  float square root; claims that need facts about it take them as hypotheses
  (e.g. `sqrtQ 0 = 0`, nonnegativity on nonnegative inputs), all of which
  hold for the real square root.  `ratSqrt` below is a concrete instance
  (exact on rational squares) used to evaluate witnesses.
* A Python `dict` preserves insertion order, so `file_dict` and the inclusion
  map are association lists.
* `cnvlib.read` either yields a parsed coverage table or raises
  (missing file / malformed data); this is modelled by `Option Cnn`.
-/

/-- A parsed row of a `.cnn` coverage file: coordinates plus the two numeric
columns the reducer consumes.  The column named `end` in the source is called
`stop` here because `end` is a Lean keyword.  Annotation columns other than
the coordinates are passed through verbatim by the source and are not
modelled. -/
structure CnnRow where
  chromosome : String
  start : Int
  stop : Int
  log2 : ℚ
  depth : ℚ
deriving DecidableEq, Repr

/-- A parsed coverage file (the `.data` frame of a `cnvlib.CopyNumArray`). -/
structure Cnn where
  data : List CnnRow
deriving DecidableEq, Repr

/-- Errors raised by the reducer.  `binCountMismatch` and
`coordinateMismatch` are the two `ValueError`s of `validate_compatibility`
(the spec's `BinMismatchError`), `indexError` is the `IndexError` that
`.iloc[0]` raises on an empty frame, `emptyInput` is the `ValueError` for an
empty `file_dict` (the spec's `EmptyInputError`), `loadFailure` is an
uncaught exception from reading the template file, and `noValidSamples` is
the `RuntimeError` raised when no sample survives (the spec's
`NoValidSamplesError`).  Constructors carry the sample name exactly where
the source's message interpolates it. -/
inductive RefError where
  | emptyInput : RefError
  | loadFailure (sample_name : String) : RefError
  | binCountMismatch (template_len new_len : Nat) (sample_name : String) : RefError
  | coordinateMismatch (sample_name : String) : RefError
  | indexError (sample_name : String) : RefError
  | noValidSamples : RefError
deriving DecidableEq, Repr

/-- `normalize_chrom`: ensures a consistent `chr` prefix for comparisons.
Python's `name.startswith("chr")` is rendered as `name.take 3 = "chr"`,
which agrees with it on every string. -/
def normalize_chrom (name : String) : String :=
  if name.take 3 = "chr" then name else "chr" ++ name

/-- `validate_compatibility`: checks bin count first, then the first bin's
`start` and the last bin's `end`.  On frames of equal nonzero length this is
exactly the source; when both frames are empty the source's `.iloc[0]`
raises an `IndexError`, modelled by the `indexError` case. -/
def validate_compatibility (template_df new_df : List CnnRow)
    (sample_name : String) : Except RefError Unit :=
  if template_df.length ≠ new_df.length then
    .error (.binCountMismatch template_df.length new_df.length sample_name)
  else
    match template_df.head?, new_df.head?, template_df.getLast?, new_df.getLast? with
    | some t0, some n0, some tl, some nl =>
        if t0.start ≠ n0.start ∨ tl.stop ≠ nl.stop then
          .error (.coordinateMismatch sample_name)
        else .ok ()
    | _, _, _, _ => .error (.indexError sample_name)

/-- Outcome of the per-sample loop body of `build_reference_matrix`:
`failed` = an exception was caught (load or validation failure), `skipped` =
empty allow-list (`continue`), `loaded` = the sample's two masked matrix
columns were written and `valid_samples_count` was incremented. -/
inductive SampleOutcome where
  | failed : SampleOutcome
  | skipped : SampleOutcome
  | loaded (log2col depthcol : List (Option ℚ)) : SampleOutcome
deriving DecidableEq, Repr

def SampleOutcome.isLoaded : SampleOutcome → Bool
  | .loaded _ _ => true
  | _ => false

/-- The sample's column of the log2 matrix: a `failed` or `skipped` sample
leaves the pre-allocated all-NaN column untouched. -/
def SampleOutcome.log2col (o : SampleOutcome) (n_bins : Nat) : List (Option ℚ) :=
  match o with
  | .loaded l _ => l
  | _ => List.replicate n_bins none

/-- The sample's column of the depth matrix. -/
def SampleOutcome.depthcol (o : SampleOutcome) (n_bins : Nat) : List (Option ℚ) :=
  match o with
  | .loaded _ d => d
  | _ => List.replicate n_bins none

/-- `mat[keep_mask, i] = raw[keep_mask]`: position-wise, a cell holds the
sample's raw value where the template's normalized chromosome is allowed and
stays NaN (`none`) elsewhere. -/
def mask (template_chroms : List String) (allowed : List String)
    (vals : List ℚ) : List (Option ℚ) :=
  List.zipWith (fun c v => if c ∈ allowed then some v else none) template_chroms vals

/-- One iteration of the sample loop (lines 152-184 of the source): load,
validate, compute the allow-list (`inclusion_map.get(sample_id, [])`,
normalized), skip on an empty allow-list, otherwise write the masked
columns.  Any caught exception yields `failed`. -/
def process_sample (template_df : List CnnRow) (template_chroms : List String)
    (inclusion_map : List (String × List String)) (sample_id : String)
    (odata : Option Cnn) : SampleOutcome :=
  match odata with
  | none => .failed
  | some curr_cnv =>
    match validate_compatibility template_df curr_cnv.data sample_id with
    | .error _ => .failed
    | .ok _ =>
      let allowed := ((inclusion_map.lookup sample_id).getD []).map normalize_chrom
      if allowed.isEmpty then .skipped
      else
        .loaded (mask template_chroms allowed (curr_cnv.data.map (·.log2)))
                (mask template_chroms allowed (curr_cnv.data.map (·.depth)))

/-- The template's normalized chromosome vector (line 147 of the source). -/
def template_chroms_of (template_cnv : Cnn) : List String :=
  template_cnv.data.map (fun r => normalize_chrom r.chromosome)

/-- The outcomes of the whole sample loop, in `file_dict` key order. -/
def sample_outcomes (template_cnv : Cnn)
    (inclusion_map : List (String × List String))
    (file_dict : List (String × Option Cnn)) : List SampleOutcome :=
  file_dict.map (fun p =>
    process_sample template_cnv.data (template_chroms_of template_cnv)
      inclusion_map p.1 p.2)

/-- The trusted (non-NaN) values of matrix row `b`, in sample order. -/
def trusted (cols : List (List (Option ℚ))) (b : Nat) : List ℚ :=
  cols.filterMap (fun col => Option.join (col.get? b))

/-- `np.nanmean` of one row's trusted values: `none` on an all-NaN row. -/
def nanmean (xs : List ℚ) : Option ℚ :=
  if xs.isEmpty then none else some (xs.sum / xs.length)

/-- The population variance (`ddof=0`, numpy's default) of a row's trusted
values: mean of squared deviations; `none` on an all-NaN row. -/
def nanvar (xs : List ℚ) : Option ℚ :=
  if xs.isEmpty then none
  else
    let mu := xs.sum / xs.length
    some ((xs.map (fun x => (x - mu) ^ 2)).sum / xs.length)

/-- `np.nanstd` (default `ddof=0`): the square root of `nanvar`. -/
def nanstd (sqrtQ : ℚ → ℚ) (xs : List ℚ) : Option ℚ :=
  (nanvar xs).map sqrtQ

/-- `np.nanmean(mat, axis=1)`: the per-bin mean vector. -/
def nanmean_rows (cols : List (List (Option ℚ))) (n_bins : Nat) : List (Option ℚ) :=
  (List.range n_bins).map (fun b => nanmean (trusted cols b))

/-- `np.nanstd(mat, axis=1)`: the per-bin standard-deviation vector. -/
def nanstd_rows (sqrtQ : ℚ → ℚ) (cols : List (List (Option ℚ)))
    (n_bins : Nat) : List (Option ℚ) :=
  (List.range n_bins).map (fun b => nanstd sqrtQ (trusted cols b))

/-- Step 5 of the source, lines 199-221: the flat-fallback substitution.
`fallback_mask` marks the bins whose log2 reduction is NaN; inside the
`n_fallback > 0` branch, log2 is forced to `0.0` there, depth to the global
mean of the (pre-substitution) depth vector or `1.0`, and spread first to
the global mean of the (pre-substitution) spread vector or `0.1` at fallback
positions and then wherever it is still NaN (line 221). -/
def flat_fallback (ref_log2 ref_depth ref_spread : List (Option ℚ)) :
    List (Option ℚ) × List (Option ℚ) × List (Option ℚ) :=
  let fallback_mask := ref_log2.map Option.isNone
  let n_fallback := fallback_mask.count true
  if 0 < n_fallback then
    let ref_log2' := List.zipWith
      (fun fb v => if fb then some 0 else v) fallback_mask ref_log2
    let global_mean_depth := nanmean (ref_depth.filterMap id)
    let ref_depth' := List.zipWith
      (fun fb v => if fb then some (global_mean_depth.getD 1) else v)
      fallback_mask ref_depth
    let global_mean_spread := nanmean (ref_spread.filterMap id)
    let safe_spread := global_mean_spread.getD (1 / 10)
    let ref_spread' := List.zipWith
      (fun fb v => if fb then some safe_spread else v) fallback_mask ref_spread
    let ref_spread'' := ref_spread'.map
      (fun v => if v.isNone then some safe_spread else v)
    (ref_log2', ref_depth', ref_spread'')
  else (ref_log2, ref_depth, ref_spread)

/-- Step 6 of the source, lines 233-234, as a scalar function: clamp spread
to the floor `1e-4`, then take the inverse square. -/
def weight_of (s : ℚ) : ℚ :=
  1 / (max s (1 / 10000)) ^ 2

/-- `weight = 1.0 / (np.maximum(ref_spread, 1e-4) ** 2)` element-wise;
`np.maximum` propagates NaN, so a NaN spread yields a NaN weight. -/
def recalculate_weights (ref_spread : List (Option ℚ)) : List (Option ℚ) :=
  ref_spread.map (Option.map weight_of)

/-- The final reference object: the template's coordinate columns with the
four computed statistics columns (`final_cnv.data[...] = ...`, lines
224-234).  The template's own log2/depth columns are overwritten, so only
the coordinates survive from it. -/
structure RefTable where
  chromosome : List String
  start : List Int
  stop : List Int
  log2 : List (Option ℚ)
  depth : List (Option ℚ)
  spread : List (Option ℚ)
  weight : List (Option ℚ)
deriving DecidableEq, Repr

/-- Steps 4-6 of the source: row-wise reduction, flat fallback, weight
derivation, and assembly of the final table from the template frame. -/
def assemble (sqrtQ : ℚ → ℚ) (template_df : List CnnRow)
    (outcomes : List SampleOutcome) : RefTable :=
  let n_bins := template_df.length
  let mat_log2 := outcomes.map (fun o => o.log2col n_bins)
  let mat_depth := outcomes.map (fun o => o.depthcol n_bins)
  let out := flat_fallback (nanmean_rows mat_log2 n_bins)
    (nanmean_rows mat_depth n_bins) (nanstd_rows sqrtQ mat_log2 n_bins)
  { chromosome := template_df.map (·.chromosome)
    start := template_df.map (·.start)
    stop := template_df.map (·.stop)
    log2 := out.1
    depth := out.2.1
    spread := out.2.2
    weight := recalculate_weights out.2.2 }

/-- `build_reference_matrix`.  An empty `file_dict` raises (line 126); the
template read at line 132 is outside the `try`, so its failure propagates
uncaught; then every sample (the template included) goes through the loop,
and if `valid_samples_count == 0` the `RuntimeError` is raised (line 187);
otherwise steps 4-6 produce the reference table. -/
def build_reference_matrix (sqrtQ : ℚ → ℚ)
    (file_dict : List (String × Option Cnn))
    (inclusion_map : List (String × List String)) : Except RefError RefTable :=
  match file_dict with
  | [] => .error .emptyInput
  | (sid0, od0) :: _ =>
    match od0 with
    | none => .error (.loadFailure sid0)
    | some template_cnv =>
      let outcomes := sample_outcomes template_cnv inclusion_map file_dict
      if (outcomes.filter (·.isLoaded)).length = 0 then
        .error .noValidSamples
      else
        .ok (assemble sqrtQ template_cnv.data outcomes)

/-- The log2 matrix of a run, bins x samples, as a list of sample columns. -/
def mat_log2_of (template_cnv : Cnn)
    (inclusion_map : List (String × List String))
    (file_dict : List (String × Option Cnn)) : List (List (Option ℚ)) :=
  (sample_outcomes template_cnv inclusion_map file_dict).map
    (fun o => o.log2col template_cnv.data.length)

/-- The depth matrix of a run. -/
def mat_depth_of (template_cnv : Cnn)
    (inclusion_map : List (String × List String))
    (file_dict : List (String × Option Cnn)) : List (List (Option ℚ)) :=
  (sample_outcomes template_cnv inclusion_map file_dict).map
    (fun o => o.depthcol template_cnv.data.length)

/-- A concrete stand-in for the float square root, exact on rational squares
(`ratSqrt (1/4) = 1/2`, `ratSqrt 0 = 0`, `ratSqrt 4 = 2`), used to evaluate
witnesses and counterexamples. -/
def ratSqrt (q : ℚ) : ℚ :=
  (Nat.sqrt (q.num.toNat * q.den) : ℚ) / (q.den : ℚ)

theorem ratSqrt_nonneg (q : ℚ) : 0 ≤ ratSqrt q := by
  unfold ratSqrt
  positivity

deriving instance DecidableEq for Except

/-!
Concrete inputs used by witnesses and counterexamples.

`exA`/`exB` form a three-bin run in which bin 0 (`chr1`) has exactly one
trusted observation (sample A), bin 1 (`chr2`) has two trusted observations
with distinct log2 values, and bin 2 (`chr3`) has none, so the flat-fallback
branch is taken.
-/

def exA : Cnn :=
  ⟨[⟨"chr1", 0, 100, 3, 2⟩, ⟨"chr2", 100, 200, 0, 4⟩, ⟨"chr3", 200, 300, 8, 9⟩]⟩

def exB : Cnn :=
  ⟨[⟨"chr1", 0, 100, 5, 7⟩, ⟨"chr2", 100, 200, 1, 6⟩, ⟨"chr3", 200, 300, 8, 9⟩]⟩

def exDict : List (String × Option Cnn) := [("A", some exA), ("B", some exB)]

def exMap : List (String × List String) :=
  [("A", ["chr1", "chr2"]), ("B", ["chr2"])]

/-- On a rational whose numerator-times-denominator is a perfect square,
`ratSqrt` is the exact square root. -/
theorem ratSqrt_eval (q : ℚ) (r : ℕ) (h : q.num.toNat * q.den = r * r) :
    ratSqrt q = (r : ℚ) / (q.den : ℚ) := by
  rw [ratSqrt, h, Nat.sqrt_eq]

theorem ratSqrt_zero : ratSqrt 0 = 0 := by
  rw [ratSqrt_eval 0 0 (by norm_num)]
  norm_num

theorem ratSqrt_quarter : ratSqrt (1 / 4) = 1 / 2 := by
  rw [ratSqrt_eval (1 / 4) 2 (by norm_num)]
  norm_num

/-- The table the reducer computes on `exDict`/`exMap` with `ratSqrt`:
bin 0 keeps spread `0` (a single trusted value has population standard
deviation `0`, not NaN), bin 1 has spread `1/2`, and fallback bin 2 receives
log2 `0`, the global mean depth `7/2` and the global mean spread `1/4`. -/
def exTable : RefTable :=
  { chromosome := ["chr1", "chr2", "chr3"]
    start := [0, 100, 200]
    stop := [100, 200, 300]
    log2 := [some 3, some (1 / 2), some 0]
    depth := [some 2, some 5, some (7 / 2)]
    spread := [some 0, some (1 / 2), some (1 / 4)]
    weight := [some 100000000, some 4, some 16] }

/-- The outcome of the sample loop on the shared example: sample A
contributes bins 0 and 1, sample B only bin 1, bin 2 is fully masked. -/
theorem exOutcomes_eval : sample_outcomes exA exMap exDict =
    [.loaded [some 3, some 0, none] [some 2, some 4, none],
     .loaded [none, some 1, none] [none, some 6, none]] := by
  simp +decide [sample_outcomes, process_sample, template_chroms_of, validate_compatibility,
    mask, exDict, exMap, exA, exB, normalize_chrom, List.lookup]

set_option maxHeartbeats 1000000 in
/-- The reducer's output on the shared example. -/
theorem exBuild_eval : build_reference_matrix ratSqrt exDict exMap = .ok exTable := by
  rw [build_reference_matrix.eq_def]
  simp only [exDict]
  rw [show sample_outcomes exA exMap [("A", some exA), ("B", some exB)] =
    [.loaded [some 3, some 0, none] [some 2, some 4, none],
     .loaded [none, some 1, none] [none, some 6, none]] from exOutcomes_eval]
  norm_num +decide [assemble, flat_fallback, nanmean_rows, nanstd_rows, nanmean, nanvar, nanstd,
    trusted, recalculate_weights, weight_of, ratSqrt_zero, ratSqrt_quarter, exA, exTable,
    SampleOutcome.log2col, SampleOutcome.depthcol, SampleOutcome.isLoaded,
    List.range, List.range.loop, List.filter, List.filterMap]

/-- Claim C6: for non-empty bin sequences the Bin-Compatibility Validator
succeeds silently iff the two sequences have equal bin count, equal
first-bin start and equal last-bin end; when the bin counts differ it
raises the bin-count mismatch error naming the sample, and when the counts
agree but a boundary differs it raises the coordinate mismatch error naming
the sample (bin count is checked first, the boundaries second). -/
theorem validate_compatibility_spec (t n : List CnnRow) (s : String)
    (ht : t ≠ []) (hn : n ≠ []) :
    (validate_compatibility t n s = .ok () ↔
      (t.length = n.length ∧
        t.head?.map CnnRow.start = n.head?.map CnnRow.start ∧
        t.getLast?.map CnnRow.stop = n.getLast?.map CnnRow.stop)) ∧
    (t.length ≠ n.length →
      validate_compatibility t n s = .error (.binCountMismatch t.length n.length s)) ∧
    (t.length = n.length →
      (t.head?.map CnnRow.start ≠ n.head?.map CnnRow.start ∨
       t.getLast?.map CnnRow.stop ≠ n.getLast?.map CnnRow.stop) →
      validate_compatibility t n s = .error (.coordinateMismatch s)) := by
  unfold validate_compatibility
  rw [List.head?_eq_head ht, List.head?_eq_head hn,
    List.getLast?_eq_getLast t ht, List.getLast?_eq_getLast n hn]
  by_cases hlen : t.length = n.length
  · by_cases hb : (t.head ht).start ≠ (n.head hn).start ∨ (t.getLast ht).stop ≠ (n.getLast hn).stop
    · simp [hlen, hb]
      tauto
    · simp [hlen, hb]
      tauto
  · simp [hlen]

/-- Witness for C6: on two concrete one-bin sequences with matching count and
boundaries, the validator succeeds silently. -/
theorem validate_compatibility_spec_witness :
    ([(⟨"chr1", 0, 100, 3, 2⟩ : CnnRow)] ≠ []) ∧
    ([(⟨"chr1", 0, 100, 5, 7⟩ : CnnRow)] ≠ []) ∧
    validate_compatibility [⟨"chr1", 0, 100, 3, 2⟩] [⟨"chr1", 0, 100, 5, 7⟩] "S" = .ok () :=
  ⟨by decide, by decide,
    ((validate_compatibility_spec [⟨"chr1", 0, 100, 3, 2⟩] [⟨"chr1", 0, 100, 5, 7⟩] "S"
      (by decide) (by decide)).1).mpr (by decide)⟩

/-- Inversion for a successful run: the input starts with a template that
loads, at least one sample is loaded, and the result is the assembly of the
loop's outcomes. -/
theorem build_ok_elim {sqrtQ : ℚ → ℚ} {fd : List (String × Option Cnn)}
    {im : List (String × List String)} {t : RefTable}
    (h : build_reference_matrix sqrtQ fd im = .ok t) :
    ∃ sid0 tmpl rest, fd = (sid0, some tmpl) :: rest ∧
      ((sample_outcomes tmpl im fd).filter (·.isLoaded)).length ≠ 0 ∧
      t = assemble sqrtQ tmpl.data (sample_outcomes tmpl im fd) := by
  match fd with
  | [] => simp [build_reference_matrix] at h
  | (sid0, none) :: rest => simp [build_reference_matrix] at h
  | (sid0, some tmpl) :: rest =>
    refine ⟨sid0, tmpl, rest, rfl, ?_⟩
    unfold build_reference_matrix at h
    dsimp only at h
    split at h
    · exact absurd h (by simp)
    · exact ⟨by assumption, by injection h with h; exact h.symm⟩

/-- Claim C8: in every returned table, weight is the clamped inverse square
of spread column-wise; as a function of spread, the weight map is
non-increasing above the clamp floor `1e-4` and constantly `1/(1e-4)^2` at
or below it. -/
theorem weight_inverse_variance (sqrtQ : ℚ → ℚ)
    (fd : List (String × Option Cnn)) (im : List (String × List String))
    (t : RefTable) (h : build_reference_matrix sqrtQ fd im = .ok t) :
    t.weight = t.spread.map (Option.map weight_of) ∧
    (∀ s : ℚ, weight_of s = 1 / (max s (1 / 10000)) ^ 2) ∧
    (∀ s₁ s₂ : ℚ, 1 / 10000 ≤ s₁ → s₁ ≤ s₂ → weight_of s₂ ≤ weight_of s₁) ∧
    (∀ s : ℚ, s ≤ 1 / 10000 → weight_of s = 1 / (1 / 10000) ^ 2) := by
  obtain ⟨sid0, tmpl, rest, rfl, hc, rfl⟩ := build_ok_elim h
  refine ⟨rfl, fun s => rfl, ?_, ?_⟩
  · intro s₁ s₂ h₁ h₂
    have hp : (0 : ℚ) < s₁ := lt_of_lt_of_le (by norm_num) h₁
    unfold weight_of
    rw [max_eq_left h₁, max_eq_left (le_trans h₁ h₂)]
    exact one_div_le_one_div_of_le (by positivity) (pow_le_pow_left₀ hp.le h₂ 2)
  · intro s hs
    unfold weight_of
    rw [max_eq_right hs]

/-- Witness for C8 on the shared example run. -/
theorem weight_inverse_variance_witness :
    build_reference_matrix ratSqrt exDict exMap = .ok exTable ∧
    exTable.weight = exTable.spread.map (Option.map weight_of) :=
  ⟨exBuild_eval, (weight_inverse_variance ratSqrt exDict exMap exTable exBuild_eval).1⟩

/-!
Embedding of `test/validate_cnv_reference.py` (`validate_reference`).

A parsed cell of a numeric column is a float that may be NaN, positive
infinity or negative infinity; `FVal` models this.  Pandas/numpy comparison semantics: any comparison with
NaN is false, `+inf` is greater than every rational, `-inf` smaller.  The
`chromosome`, `start` and `end` columns are modelled as well-typed (the
claims under study only concern the numeric statistics columns).  The
file-existence and column-presence checks of the source precede parsing and
always pass for a well-typed frame, so they appear as the two leading
`true` entries of the result list.
-/

inductive FVal where
  | nan : FVal
  | pinf : FVal
  | ninf : FVal
  | val (q : ℚ) : FVal
deriving DecidableEq, Repr

/-- `pd.isna` on a float cell. -/
def FVal.isna : FVal → Bool
  | .nan => true
  | _ => false

/-- `np.isinf` on a float cell. -/
def FVal.isinf : FVal → Bool
  | .pinf => true
  | .ninf => true
  | _ => false

/-- The float comparison `x <= c` (false on NaN). -/
def FVal.lec (x : FVal) (c : ℚ) : Bool :=
  match x with
  | .val q => q ≤ c
  | .ninf => true
  | _ => false

/-- The float comparison `x < c` (false on NaN). -/
def FVal.ltc (x : FVal) (c : ℚ) : Bool :=
  match x with
  | .val q => q < c
  | .ninf => true
  | _ => false

/-- The float comparison `x == c` (false on NaN and infinities). -/
def FVal.eqc (x : FVal) (c : ℚ) : Bool :=
  match x with
  | .val q => q = c
  | _ => false

/-- One row of the reference file consumed by the validator. -/
structure VRow where
  chromosome : String
  start : Int
  stop : Int
  log2 : FVal
  depth : FVal
  spread : FVal
  weight : FVal
deriving DecidableEq, Repr

/-- `validate_reference` of `test/validate_cnv_reference.py`, from the point
where the frame is parsed: each check's boolean mirrors the source, the
`results` list collects, in order, File Load, Column Structure, NaN Check,
Inf Check, Coordinates, Positivity, Spread Validity and Fallback Logic.
`passed_depth` (Depth Validity, line 106) is computed and printed but never
appended to `results` (the source comments: "We don't fail the pipeline for
zero depth"), and the verdict is the conjunction of `results`. -/
def validate_reference (df : List VRow) : Bool :=
  let passed_nan := df.all (fun r =>
    !r.log2.isna && !r.depth.isna && !r.spread.isna && !r.weight.isna)
  let passed_inf := df.all (fun r =>
    !r.log2.isinf && !r.depth.isinf && !r.spread.isinf && !r.weight.isinf)
  let passed_coords := df.all (fun r => !(r.stop ≤ r.start))
  let passed_neg := df.all (fun r => !(r.start < 0 || r.stop < 0))
  let passed_depth := df.all (fun r => !(r.depth.lec 0))
  let passed_spread := df.all (fun r => !(r.spread.ltc (1 / 100000)))
  let passed_flat := df.any (fun r => r.log2.eqc 0)
  let results := [true, true, passed_nan, passed_inf, passed_coords,
    passed_neg, passed_spread, passed_flat]
  let _ := passed_depth
  results.all id

/-- A frame whose every depth is nonpositive but which is otherwise
well-formed. -/
def exNonposDepth : List VRow :=
  [⟨"chr1", 0, 100, .val 0, .val 0, .val 1, .val 1⟩,
   ⟨"chr2", 100, 200, .val 1, .val (-3), .val 1, .val 1⟩]

/-- Claim C10 (amended): the validator's verdict is independent of the depth
column as long as its values are finite floats (replacing the depth column
by any two finite-valued assignments gives the same verdict), and a file in
which every bin has depth at most 0 can still be reported VALID, because the
depth-positivity check is computed but never added to the result list that
decides the verdict. -/
theorem validate_reference_depth_independent :
    (∀ (df : List VRow) (g₁ g₂ : VRow → ℚ),
      validate_reference (df.map fun r => { r with depth := .val (g₁ r) }) =
      validate_reference (df.map fun r => { r with depth := .val (g₂ r) })) ∧
    (∀ r ∈ exNonposDepth, r.depth.lec 0) ∧
    validate_reference exNonposDepth = true := by
  refine ⟨fun df g₁ g₂ => ?_, by decide, ?_⟩
  · unfold validate_reference
    simp only [List.all_map, List.any_map, Function.comp_def]
    dsimp only [FVal.isna, FVal.isinf]
  · norm_num [validate_reference, exNonposDepth, FVal.lec, FVal.ltc, FVal.eqc,
      FVal.isna, FVal.isinf]

/-- Counterexample to claim C10 as stated: two frames that differ only in
the depth column's values (a finite depth versus a NaN depth) receive
different verdicts, because the NaN check of the verdict covers the depth
column; so the verdict is not independent of the depth values in general. -/
theorem validate_reference_depends_on_depth :
    validate_reference [⟨"chr1", 0, 100, .val 0, .val 1, .val 1, .val 1⟩] = true ∧
    validate_reference [⟨"chr1", 0, 100, .val 0, .nan, .val 1, .val 1⟩] = false := by
  constructor <;>
    norm_num [validate_reference, FVal.lec, FVal.ltc, FVal.eqc, FVal.isna, FVal.isinf]

/-- Modelled from the spec: the sample standard deviation's variance
(Bessel-corrected, `ddof = 1`), which the spec's "sample standard deviation
... with fewer than 2 trusted observations is undefined" denotes; given for
comparison with the source's `nanvar` (`np.nanstd` default `ddof = 0`). -/
def nanvar_sample_spec (xs : List ℚ) : Option ℚ :=
  if xs.length < 2 then none
  else
    let mu := xs.sum / xs.length
    some ((xs.map (fun x => (x - mu) ^ 2)).sum / ((xs.length : ℚ) - 1))

/-- The log2 matrix of the shared example run. -/
theorem exMat_eval : mat_log2_of exA exMap exDict =
    [[some 3, some 0, none], [none, some 1, none]] := by
  unfold mat_log2_of
  rw [exOutcomes_eval]
  rfl

/-- The pre-fallback spread vector of the shared example run: the
single-trusted bin 0 yields `0.0` (not NaN), the two-trusted bin 1 yields
the population standard deviation `1/2`, the untrusted bin 2 yields NaN. -/
theorem exSpread_eval : nanstd_rows ratSqrt (mat_log2_of exA exMap exDict) 3 =
    [some 0, some (1 / 2), none] := by
  rw [exMat_eval]
  norm_num [nanstd_rows, nanstd, nanvar, trusted, List.range, List.range.loop,
    List.filterMap, ratSqrt_zero, ratSqrt_quarter]
  exact ⟨1 / 4, ⟨List.cons_ne_nil _ _, rfl⟩, ratSqrt_quarter⟩

/-- Claim C3 (code defect, evaluated at the failing input): in the row-wise
reduction step a bin with exactly one trusted observation gets the defined
spread `0.0`, not an undefined value (`np.nanstd` with its default
`ddof = 0` returns `0.0` for a single value), and only a zero-trusted bin is
undefined; moreover the step's variance on the two observations `0, 2` is
the population variance `1`, whereas the sample variance the spec names is
`2`, so the computed spread is the population standard deviation. -/
theorem nanstd_population_not_sample :
    nanstd_rows ratSqrt (mat_log2_of exA exMap exDict) 3 = [some 0, some (1 / 2), none] ∧
    (trusted (mat_log2_of exA exMap exDict) 0).length = 1 ∧
    nanvar [0, 2] = some 1 ∧
    nanvar_sample_spec [0, 2] = some 2 := by
  refine ⟨exSpread_eval, ?_, ?_, ?_⟩
  · rw [exMat_eval]; rfl
  · norm_num [nanvar]
  · norm_num [nanvar_sample_spec]

/-- Claim C2 (code defect, evaluated at the failing input): on the shared
example, bin 0 has exactly one trusted observation and the run's global
fallback spread is `1/4`, yet the returned table's spread at bin 0 is `0`,
not the global fallback spread: the code comment "Also fix any single-sample
bins that yielded NaN std" (line 220) never fires because `np.nanstd`
(default `ddof = 0`) returns `0.0`, not NaN, on a single value. -/
theorem single_trusted_bin_spread_zero :
    build_reference_matrix ratSqrt exDict exMap = .ok exTable ∧
    (trusted (mat_log2_of exA exMap exDict) 0).length = 1 ∧
    (nanmean ((nanstd_rows ratSqrt (mat_log2_of exA exMap exDict) 3).filterMap id)).getD (1 / 10) = 1 / 4 ∧
    exTable.spread.get? 0 = some (some 0) ∧
    exTable.spread.get? 0 ≠ some (some ((nanmean ((nanstd_rows ratSqrt
      (mat_log2_of exA exMap exDict) 3).filterMap id)).getD (1 / 10))) := by
  have hg : (nanmean ((nanstd_rows ratSqrt (mat_log2_of exA exMap exDict) 3).filterMap id)).getD (1 / 10) = 1 / 4 := by
    rw [exSpread_eval]
    norm_num [nanmean, List.filterMap]
  refine ⟨exBuild_eval, ?_, hg, rfl, ?_⟩
  · rw [exMat_eval]; rfl
  · rw [hg]
    norm_num [exTable]

/-- A one-bin, one-sample input used for the C5 and C7 counterexamples. -/
def c5A : Cnn := ⟨[⟨"chr1", 0, 100, 5, 2⟩]⟩

/-- Claim C5 (amended): given a non-empty input whose first (template) file
loads, the reducer raises the no-valid-samples error iff every sample's loop
outcome is a failure or a skip (empty allow-list); a sample that loads,
validates and has a non-empty allow-list counts as valid even when its
allowed chromosomes match no template chromosome, so it suppresses the
error without contributing any trusted data. -/
theorem noValidSamples_iff (sqrtQ : ℚ → ℚ) (sid0 : String) (tmpl : Cnn)
    (rest : List (String × Option Cnn)) (im : List (String × List String)) :
    build_reference_matrix sqrtQ ((sid0, some tmpl) :: rest) im = .error .noValidSamples ↔
    ∀ o ∈ sample_outcomes tmpl im ((sid0, some tmpl) :: rest), o.isLoaded = false := by
  have hbuild : build_reference_matrix sqrtQ ((sid0, some tmpl) :: rest) im =
      (if ((sample_outcomes tmpl im ((sid0, some tmpl) :: rest)).filter (·.isLoaded)).length = 0
       then .error .noValidSamples
       else .ok (assemble sqrtQ tmpl.data (sample_outcomes tmpl im ((sid0, some tmpl) :: rest)))) := rfl
  rw [hbuild]
  split_ifs with hc
  · rw [List.length_eq_zero, List.filter_eq_nil_iff] at hc
    constructor
    · intro _ o ho
      cases hl : o.isLoaded
      · rfl
      · exact absurd hl (hc o ho)
    · intro _
      rfl
  · rw [List.length_eq_zero, List.filter_eq_nil_iff] at hc
    push_neg at hc
    constructor
    · intro h; exact absurd h (by simp)
    · intro h
      obtain ⟨o, ho, hl⟩ := hc
      exact absurd (h o ho) (by simp [hl])

/-- Counterexample to claim C5 as stated: a single sample whose allow-list
names only `chr9` while the template has only `chr1` contributes no trusted
data to any bin (its matrix column is all NaN, so every bin is a fallback
bin), yet the reducer returns a table instead of raising
`NoValidSamplesError`. -/
theorem no_trusted_data_but_no_error :
    build_reference_matrix ratSqrt [("A", some c5A)] [("A", ["chr9"])] =
      .ok ⟨["chr1"], [0], [100], [some 0], [some 1], [some (1 / 10)], [some 100]⟩ ∧
    trusted (mat_log2_of c5A [("A", ["chr9"])] [("A", some c5A)]) 0 = [] := by
  have houtcomes : sample_outcomes c5A [("A", ["chr9"])] [("A", some c5A)] =
      [.loaded [none] [none]] := by
    simp +decide [sample_outcomes, process_sample, template_chroms_of, validate_compatibility,
      mask, c5A, normalize_chrom, List.lookup]
  constructor
  · rw [build_reference_matrix.eq_def]
    dsimp only
    rw [show sample_outcomes c5A [("A", ["chr9"])] [("A", some c5A)] =
      [.loaded [none] [none]] from houtcomes]
    norm_num [assemble, flat_fallback, nanmean_rows, nanstd_rows, nanmean, nanvar, nanstd,
      trusted, recalculate_weights, weight_of, c5A,
      SampleOutcome.log2col, SampleOutcome.depthcol, SampleOutcome.isLoaded,
      List.range, List.range.loop, List.filter, List.filterMap]
  · unfold mat_log2_of
    rw [houtcomes]
    rfl

/-- Mapping commutes with removing the element at an index. -/
theorem map_eraseIdx {α β : Type} (f : α → β) :
    ∀ (l : List α) (i : ℕ), (l.eraseIdx i).map f = (l.map f).eraseIdx i := by
  intro l
  induction l with
  | nil => intro i; simp
  | cons a as ih =>
    intro i
    cases i with
    | zero => simp
    | succ j => simp [List.eraseIdx_cons_succ, ih]

/-- Removing an element the filter rejects does not change the filter. -/
theorem filter_eraseIdx_not {α : Type} (p : α → Bool) :
    ∀ (l : List α) (i : ℕ) (a : α), l.get? i = some a → p a = false →
      (l.eraseIdx i).filter p = l.filter p := by
  intro l
  induction l with
  | nil => intro i a h; simp at h
  | cons x xs ih =>
    intro i a h hp
    cases i with
    | zero =>
      simp only [List.get?] at h
      injection h with h
      subst h
      simp [List.filter_cons, hp]
    | succ j =>
      simp only [List.get?] at h
      rw [List.eraseIdx_cons_succ]
      simp only [List.filter_cons]
      rw [ih j a h hp]

/-- Removing an element on which the function is `none` does not change a
`filterMap`. -/
theorem filterMap_eraseIdx_none {α β : Type} (g : α → Option β) :
    ∀ (l : List α) (i : ℕ) (a : α), l.get? i = some a → g a = none →
      (l.eraseIdx i).filterMap g = l.filterMap g := by
  intro l
  induction l with
  | nil => intro i a h; simp at h
  | cons x xs ih =>
    intro i a h hg
    cases i with
    | zero =>
      simp only [List.get?] at h
      injection h with h
      subst h
      simp [List.filterMap_cons, hg]
    | succ j =>
      simp only [List.get?] at h
      rw [List.eraseIdx_cons_succ]
      simp only [List.filterMap_cons]
      cases g x <;> simp [ih j a h hg]

/-- Any cell of an all-NaN column is NaN. -/
theorem join_get?_replicate {α : Type} (n b : ℕ) :
    Option.join ((List.replicate n (none : Option α)).get? b) = none := by
  rw [List.get?_eq_getElem?, List.getElem?_replicate]
  split_ifs <;> rfl

/-- Dropping an all-NaN column leaves every row's trusted values unchanged. -/
theorem trusted_eraseIdx (cols : List (List (Option ℚ))) (i : ℕ) (col : List (Option ℚ))
    (h : cols.get? i = some col) (hall : ∀ b, Option.join (col.get? b) = none) (b : ℕ) :
    trusted (cols.eraseIdx i) b = trusted cols b :=
  filterMap_eraseIdx_none _ cols i col h (hall b)

/-- Dropping an all-NaN column leaves the per-bin mean vector unchanged. -/
theorem nanmean_rows_eraseIdx (m : List (List (Option ℚ))) (i : ℕ) (col : List (Option ℚ))
    (n : ℕ) (h : m.get? i = some col) (hall : ∀ b, Option.join (col.get? b) = none) :
    nanmean_rows (m.eraseIdx i) n = nanmean_rows m n := by
  unfold nanmean_rows
  exact List.map_congr_left fun b _ => by rw [trusted_eraseIdx m i col h hall b]

/-- Dropping an all-NaN column leaves the per-bin spread vector unchanged. -/
theorem nanstd_rows_eraseIdx (sqrtQ : ℚ → ℚ) (m : List (List (Option ℚ))) (i : ℕ)
    (col : List (Option ℚ)) (n : ℕ) (h : m.get? i = some col)
    (hall : ∀ b, Option.join (col.get? b) = none) :
    nanstd_rows sqrtQ (m.eraseIdx i) n = nanstd_rows sqrtQ m n := by
  unfold nanstd_rows
  exact List.map_congr_left fun b _ => by rw [trusted_eraseIdx m i col h hall b]

/-- Steps 4-6 are unchanged when a non-contributing (failed or skipped)
sample's column is dropped from the matrix. -/
theorem assemble_eraseIdx (sqrtQ : ℚ → ℚ) (tdf : List CnnRow)
    (outcomes : List SampleOutcome) (i : ℕ) (o : SampleOutcome)
    (h : outcomes.get? i = some o) (hno : o.isLoaded = false) :
    assemble sqrtQ tdf (outcomes.eraseIdx i) = assemble sqrtQ tdf outcomes := by
  have hl2 : o.log2col tdf.length = List.replicate tdf.length none := by
    cases o with
    | loaded l d => simp [SampleOutcome.isLoaded] at hno
    | failed => rfl
    | skipped => rfl
  have hd : o.depthcol tdf.length = List.replicate tdf.length none := by
    cases o with
    | loaded l d => simp [SampleOutcome.isLoaded] at hno
    | failed => rfl
    | skipped => rfl
  have hgl : (outcomes.map (fun x => x.log2col tdf.length)).get? i =
      some (List.replicate tdf.length none) := by
    rw [List.get?_map, h]
    simp [hl2]
  have hgd : (outcomes.map (fun x => x.depthcol tdf.length)).get? i =
      some (List.replicate tdf.length none) := by
    rw [List.get?_map, h]
    simp [hd]
  unfold assemble
  dsimp only
  rw [map_eraseIdx, map_eraseIdx,
    nanmean_rows_eraseIdx _ i _ _ hgl (fun b => join_get?_replicate _ b),
    nanmean_rows_eraseIdx _ i _ _ hgd (fun b => join_get?_replicate _ b),
    nanstd_rows_eraseIdx sqrtQ _ i _ _ hgl (fun b => join_get?_replicate _ b)]

/-- Claim C7 (amended): when a sample other than the first (template) fails
per-sample processing while at least one sample is loaded, the reducer still
returns a table, and that table is exactly the one built from the input with
the failing sample removed.  (For the first sample the claim fails: its read
at line 132 is outside the try/except, see the counterexample.) -/
theorem per_sample_failure_recoverable (sqrtQ : ℚ → ℚ) (sid0 : String) (tmpl : Cnn)
    (rest : List (String × Option Cnn)) (im : List (String × List String))
    (i : ℕ) (sid : String) (od : Option Cnn)
    (hi : i ≠ 0)
    (hget : ((sid0, some tmpl) :: rest).get? i = some (sid, od))
    (hfail : process_sample tmpl.data (template_chroms_of tmpl) im sid od = .failed)
    (hloaded : ∃ o ∈ sample_outcomes tmpl im ((sid0, some tmpl) :: rest), o.isLoaded = true) :
    (∃ t, build_reference_matrix sqrtQ ((sid0, some tmpl) :: rest) im = .ok t) ∧
    build_reference_matrix sqrtQ ((sid0, some tmpl) :: rest) im =
      build_reference_matrix sqrtQ (((sid0, some tmpl) :: rest).eraseIdx i) im := by
  obtain ⟨j, rfl⟩ : ∃ j, i = j + 1 :=
    ⟨i - 1, (Nat.succ_pred_eq_of_pos (Nat.pos_of_ne_zero hi)).symm⟩
  have hcount : ((sample_outcomes tmpl im ((sid0, some tmpl) :: rest)).filter
      (·.isLoaded)).length ≠ 0 := by
    obtain ⟨o, ho, hl⟩ := hloaded
    intro h0
    rw [List.length_eq_zero, List.filter_eq_nil_iff] at h0
    exact absurd hl (h0 o ho)
  have hbuild : build_reference_matrix sqrtQ ((sid0, some tmpl) :: rest) im =
      .ok (assemble sqrtQ tmpl.data (sample_outcomes tmpl im ((sid0, some tmpl) :: rest))) := by
    have hb : build_reference_matrix sqrtQ ((sid0, some tmpl) :: rest) im =
        (if ((sample_outcomes tmpl im ((sid0, some tmpl) :: rest)).filter
            (·.isLoaded)).length = 0
         then .error .noValidSamples
         else .ok (assemble sqrtQ tmpl.data
           (sample_outcomes tmpl im ((sid0, some tmpl) :: rest)))) := rfl
    rw [hb, if_neg hcount]
  have hout_i : (sample_outcomes tmpl im ((sid0, some tmpl) :: rest)).get? (j + 1) =
      some SampleOutcome.failed := by
    unfold sample_outcomes
    rw [List.get?_map, hget]
    simp [hfail]
  have houts : sample_outcomes tmpl im (((sid0, some tmpl) :: rest).eraseIdx (j + 1)) =
      (sample_outcomes tmpl im ((sid0, some tmpl) :: rest)).eraseIdx (j + 1) := by
    unfold sample_outcomes
    exact map_eraseIdx _ ((sid0, some tmpl) :: rest) (j + 1)
  have hcount' : (((sample_outcomes tmpl im ((sid0, some tmpl) :: rest)).eraseIdx
      (j + 1)).filter (·.isLoaded)).length ≠ 0 := by
    rw [filter_eraseIdx_not _ _ (j + 1) _ hout_i rfl]
    exact hcount
  have hbuild' : build_reference_matrix sqrtQ (((sid0, some tmpl) :: rest).eraseIdx (j + 1)) im =
      .ok (assemble sqrtQ tmpl.data
        ((sample_outcomes tmpl im ((sid0, some tmpl) :: rest)).eraseIdx (j + 1))) := by
    rw [show ((sid0, some tmpl) :: rest).eraseIdx (j + 1) =
      (sid0, some tmpl) :: rest.eraseIdx j from rfl]
    have hb : build_reference_matrix sqrtQ ((sid0, some tmpl) :: rest.eraseIdx j) im =
        (if ((sample_outcomes tmpl im ((sid0, some tmpl) :: rest.eraseIdx j)).filter
            (·.isLoaded)).length = 0
         then .error .noValidSamples
         else .ok (assemble sqrtQ tmpl.data
           (sample_outcomes tmpl im ((sid0, some tmpl) :: rest.eraseIdx j)))) := rfl
    have heq : sample_outcomes tmpl im ((sid0, some tmpl) :: rest.eraseIdx j) =
        (sample_outcomes tmpl im ((sid0, some tmpl) :: rest)).eraseIdx (j + 1) := by
      rw [show (sid0, some tmpl) :: rest.eraseIdx j =
        ((sid0, some tmpl) :: rest).eraseIdx (j + 1) from rfl]
      exact houts
    rw [hb, heq, if_neg hcount']
  refine ⟨⟨_, hbuild⟩, ?_⟩
  rw [hbuild, hbuild',
    assemble_eraseIdx sqrtQ tmpl.data _ (j + 1) SampleOutcome.failed hout_i rfl]

/-- Counterexample to claim C7 as stated: when the sample that fails to load
is the first one, the template read (line 132, outside the try/except)
raises and the whole build aborts even though the other sample is fine. -/
theorem first_sample_failure_aborts :
    build_reference_matrix ratSqrt [("A", none), ("B", some c5A)]
      [("A", ["chr1"]), ("B", ["chr1"])] = .error (.loadFailure "A") := rfl

/-- The loop outcomes for the C7 witness input: sample A loads, Bad fails. -/
theorem c7Outcomes_eval : sample_outcomes c5A [("A", ["chr1"])]
    [("A", some c5A), ("Bad", none)] = [.loaded [some 5] [some 2], .failed] := by
  simp +decide [sample_outcomes, process_sample, template_chroms_of, validate_compatibility,
    mask, c5A, normalize_chrom, List.lookup]

/-- Witness for C7: a failing second sample is excluded and the build
returns exactly the table of the remaining sample. -/
theorem per_sample_failure_recoverable_witness :
    process_sample c5A.data (template_chroms_of c5A) [("A", ["chr1"])] "Bad" none =
      .failed ∧
    (∃ t, build_reference_matrix ratSqrt [("A", some c5A), ("Bad", none)]
      [("A", ["chr1"])] = .ok t) ∧
    build_reference_matrix ratSqrt [("A", some c5A), ("Bad", none)] [("A", ["chr1"])] =
      build_reference_matrix ratSqrt [("A", some c5A)] [("A", ["chr1"])] := by
  have h := per_sample_failure_recoverable ratSqrt "A" c5A [("Bad", none)]
    [("A", ["chr1"])] 1 "Bad" none (by decide) rfl rfl
    ⟨SampleOutcome.loaded [some 5] [some 2], by rw [c7Outcomes_eval]; exact List.mem_cons_self _ _, rfl⟩
  exact ⟨rfl, h.1, h.2⟩

/-- The row mean is NaN exactly on an all-NaN row. -/
theorem nanmean_eq_none_iff (xs : List ℚ) : nanmean xs = none ↔ xs = [] := by
  cases xs <;> simp [nanmean]

/-- The row standard deviation is NaN exactly on an all-NaN row
(`ddof = 0`: a single value already yields a defined 0). -/
theorem nanstd_eq_none_iff (sqrtQ : ℚ → ℚ) (xs : List ℚ) :
    nanstd sqrtQ xs = none ↔ xs = [] := by
  cases xs <;> simp [nanstd, nanvar]

/-- A defined population variance is nonnegative. -/
theorem nanvar_nonneg (xs : List ℚ) (q : ℚ) (h : nanvar xs = some q) : 0 ≤ q := by
  unfold nanvar at h
  split_ifs at h with he
  injection h with h
  subst h
  apply div_nonneg
  · apply List.sum_nonneg
    intro x hx
    obtain ⟨y, _, rfl⟩ := List.mem_map.mp hx
    exact sq_nonneg _
  · positivity

/-- The mean of nonnegative values is nonnegative. -/
theorem nanmean_nonneg (xs : List ℚ) (q : ℚ) (hall : ∀ x ∈ xs, 0 ≤ x)
    (h : nanmean xs = some q) : 0 ≤ q := by
  unfold nanmean at h
  split_ifs at h with he
  injection h with h
  subst h
  apply div_nonneg (List.sum_nonneg hall)
  positivity

/-- Two masked columns built from the same mask over value vectors of equal
length have NaN cells at exactly the same positions. -/
theorem mask_join_pattern (chroms allowed : List String) (v₁ v₂ : List ℚ)
    (hlen : v₁.length = v₂.length) (b : ℕ) :
    (Option.join ((mask chroms allowed v₁).get? b) = none ↔
     Option.join ((mask chroms allowed v₂).get? b) = none) := by
  unfold mask
  rw [List.get?_eq_getElem?, List.get?_eq_getElem?, List.getElem?_zipWith, List.getElem?_zipWith]
  cases hc : chroms[b]? with
  | none => simp
  | some c =>
    cases h1 : v₁[b]? with
    | none =>
      have h2 : v₂[b]? = none := by
        rw [List.getElem?_eq_none_iff] at h1 ⊢
        omega
      simp [h2]
    | some x =>
      have hb1 : b < v₁.length := by
        by_contra hge
        rw [List.getElem?_eq_none_iff.mpr (by omega)] at h1
        exact absurd h1 (by simp)
      have hb2 : b < v₂.length := by omega
      obtain ⟨y, h2⟩ : ∃ y, v₂[b]? = some y :=
        ⟨v₂[b], List.getElem?_eq_getElem hb2⟩
      rw [h2]
      by_cases hmem : c ∈ allowed <;> simp [hmem]

/-- A sample's log2 and depth columns have NaN cells at exactly the same
positions: the two matrices are written through one `keep_mask`. -/
theorem process_pattern (tdf : List CnnRow) (chroms : List String)
    (im : List (String × List String)) (sid : String) (od : Option Cnn) (n b : ℕ) :
    (Option.join (((process_sample tdf chroms im sid od).log2col n).get? b) = none ↔
     Option.join (((process_sample tdf chroms im sid od).depthcol n).get? b) = none) := by
  unfold process_sample
  cases od with
  | none => simp [SampleOutcome.log2col, SampleOutcome.depthcol]
  | some curr =>
    cases hv : validate_compatibility tdf curr.data sid with
    | error e =>
      simp only [hv]
      simp [SampleOutcome.log2col, SampleOutcome.depthcol]
    | ok u =>
      simp only [hv]
      split_ifs with ha
      · simp [SampleOutcome.log2col, SampleOutcome.depthcol]
      · exact mask_join_pattern _ _ _ _ (by simp) b

/-- A row has no trusted values iff every column's cell there is NaN. -/
theorem trusted_map_eq_nil_iff {α : Type} (g : α → List (Option ℚ)) (l : List α) (b : ℕ) :
    (trusted (l.map g) b = [] ↔ ∀ p ∈ l, Option.join ((g p).get? b) = none) := by
  unfold trusted
  rw [List.filterMap_eq_nil_iff]
  constructor
  · intro h p hp
    exact h _ (List.mem_map.mpr ⟨p, hp, rfl⟩)
  · intro h col hcol
    obtain ⟨p, hp, rfl⟩ := List.mem_map.mp hcol
    exact h p hp

/-- A bin has zero trusted log2 observations iff it has zero trusted depth
observations. -/
theorem matrices_pattern (tmpl : Cnn) (im : List (String × List String))
    (fd : List (String × Option Cnn)) (b : ℕ) :
    (trusted (mat_log2_of tmpl im fd) b = [] ↔
     trusted (mat_depth_of tmpl im fd) b = []) := by
  unfold mat_log2_of mat_depth_of sample_outcomes
  rw [List.map_map, List.map_map, trusted_map_eq_nil_iff, trusted_map_eq_nil_iff]
  constructor
  · intro h p hp
    exact (process_pattern tmpl.data (template_chroms_of tmpl) im p.1 p.2 _ b).mp (h p hp)
  · intro h p hp
    exact (process_pattern tmpl.data (template_chroms_of tmpl) im p.1 p.2 _ b).mpr (h p hp)

/-- Cell access into the per-bin mean vector. -/
theorem nanmean_rows_get? (m : List (List (Option ℚ))) (n b : ℕ) (hb : b < n) :
    (nanmean_rows m n).get? b = some (nanmean (trusted m b)) := by
  unfold nanmean_rows
  rw [List.get?_map, List.get?_range hb]
  rfl

/-- Cell access into the per-bin spread vector. -/
theorem nanstd_rows_get? (sqrtQ : ℚ → ℚ) (m : List (List (Option ℚ))) (n b : ℕ)
    (hb : b < n) :
    (nanstd_rows sqrtQ m n).get? b = some (nanstd sqrtQ (trusted m b)) := by
  unfold nanstd_rows
  rw [List.get?_map, List.get?_range hb]
  rfl

/-- At a fallback bin (NaN mean, NaN spread), the flat-fallback substitution
produces log2 `0.0`, the global mean of the defined pre-substitution depths
(default `1.0`) and the global mean of the defined pre-substitution spreads
(default `0.1`). -/
theorem flat_fallback_fallback_bin (L D S : List (Option ℚ)) (b : ℕ)
    (hLD : L.length = D.length)
    (hLb : L.get? b = some none) (hSb : S.get? b = some none) :
    (flat_fallback L D S).1.get? b = some (some 0) ∧
    (flat_fallback L D S).2.1.get? b = some (some ((nanmean (D.filterMap id)).getD 1)) ∧
    (flat_fallback L D S).2.2.get? b = some (some ((nanmean (S.filterMap id)).getD (1 / 10))) := by
  have hmem : (true : Bool) ∈ L.map Option.isNone := by
    rw [List.mem_iff_get?]
    exact ⟨b, by rw [List.get?_map, hLb]; rfl⟩
  have hcount : 0 < (L.map Option.isNone).count true := List.count_pos_iff.mpr hmem
  have hbl : b < L.length := by
    have := List.get?_eq_some.mp hLb
    exact this.1
  obtain ⟨dv, hDb⟩ : ∃ dv, D.get? b = some dv := by
    have hbd : b < D.length := hLD ▸ hbl
    exact ⟨D.get ⟨b, hbd⟩, List.get?_eq_get hbd⟩
  unfold flat_fallback
  rw [if_pos hcount]
  refine ⟨?_, ?_, ?_⟩
  · rw [List.get?_eq_getElem?, List.getElem?_zipWith,
      ← List.get?_eq_getElem?, ← List.get?_eq_getElem?, List.get?_map, hLb]
    rfl
  · rw [List.get?_eq_getElem?, List.getElem?_zipWith,
      ← List.get?_eq_getElem?, ← List.get?_eq_getElem?, List.get?_map, hLb, hDb]
    rfl
  · rw [List.get?_map, List.get?_eq_getElem?, List.getElem?_zipWith,
      ← List.get?_eq_getElem?, ← List.get?_eq_getElem?, List.get?_map, hLb, hSb]
    rfl

/-- Collecting the defined results of a guarded map is a filter-then-map. -/
theorem filterMap_id_map_ite {α : Type} (p : α → Bool) (g : α → Option ℚ) (l : List α) :
    ((l.map (fun x => if p x then none else g x)).filterMap id) =
    (l.filter (fun x => !p x)).filterMap g := by
  induction l with
  | nil => rfl
  | cons x xs ih => by_cases hp : p x <;> simp [List.filter_cons, hp, ih, List.filterMap_cons]

/-- The defined entries of the per-bin mean vector are exactly the means of
the bins with at least one trusted observation: no substituted value is
among them. -/
theorem filterMap_id_nanmean_rows (m : List (List (Option ℚ))) (n : ℕ) :
    (nanmean_rows m n).filterMap id =
    ((List.range n).filter (fun b' => !(trusted m b').isEmpty)).filterMap
      (fun b' => nanmean (trusted m b')) := by
  have h1 : nanmean_rows m n =
      (List.range n).map (fun b' => if (trusted m b').isEmpty then none
        else nanmean (trusted m b')) := by
    unfold nanmean_rows
    refine List.map_congr_left fun b' _ => ?_
    by_cases he : (trusted m b').isEmpty
    · rw [if_pos he]
      rw [List.isEmpty_iff] at he
      rw [he]
      rfl
    · rw [if_neg he]
  rw [h1, filterMap_id_map_ite]

/-- Claim C4: in a returned table, every bin with zero trusted observations
has log2 exactly `0.0`, depth equal to the mean of the depth values defined
before any fallback substitution (or `1.0` if none is defined), and spread
equal to the mean of the spread values defined before any fallback
substitution (or `0.1` if none is defined); the averaged values are exactly
the pre-substitution statistics of the bins with at least one trusted
observation, so no substituted fallback value contaminates them. -/
theorem zero_trusted_bin_fallback (sqrtQ : ℚ → ℚ) (sid0 : String) (tmpl : Cnn)
    (rest : List (String × Option Cnn)) (im : List (String × List String))
    (t : RefTable) (b : ℕ)
    (hok : build_reference_matrix sqrtQ ((sid0, some tmpl) :: rest) im = .ok t)
    (hb : b < tmpl.data.length)
    (hzero : trusted (mat_log2_of tmpl im ((sid0, some tmpl) :: rest)) b = []) :
    t.log2.get? b = some (some 0) ∧
    t.depth.get? b = some (some ((nanmean ((nanmean_rows
      (mat_depth_of tmpl im ((sid0, some tmpl) :: rest))
      tmpl.data.length).filterMap id)).getD 1)) ∧
    t.spread.get? b = some (some ((nanmean ((nanstd_rows sqrtQ
      (mat_log2_of tmpl im ((sid0, some tmpl) :: rest))
      tmpl.data.length).filterMap id)).getD (1 / 10))) ∧
    (nanmean_rows (mat_depth_of tmpl im ((sid0, some tmpl) :: rest))
        tmpl.data.length).filterMap id =
      ((List.range tmpl.data.length).filter (fun b' =>
        !(trusted (mat_depth_of tmpl im ((sid0, some tmpl) :: rest)) b').isEmpty)).filterMap
        (fun b' => nanmean (trusted (mat_depth_of tmpl im ((sid0, some tmpl) :: rest)) b')) := by
  have hbuild : build_reference_matrix sqrtQ ((sid0, some tmpl) :: rest) im =
      (if ((sample_outcomes tmpl im ((sid0, some tmpl) :: rest)).filter (·.isLoaded)).length = 0
       then .error .noValidSamples
       else .ok (assemble sqrtQ tmpl.data (sample_outcomes tmpl im ((sid0, some tmpl) :: rest)))) := rfl
  rw [hbuild] at hok
  by_cases hc : ((sample_outcomes tmpl im ((sid0, some tmpl) :: rest)).filter
      (·.isLoaded)).length = 0
  · rw [if_pos hc] at hok
    exact absurd hok (by simp)
  rw [if_neg hc] at hok
  have ht : t = assemble sqrtQ tmpl.data (sample_outcomes tmpl im ((sid0, some tmpl) :: rest)) := by
    injection hok with h
    exact h.symm
  subst ht
  have hL : (nanmean_rows (mat_log2_of tmpl im ((sid0, some tmpl) :: rest))
      tmpl.data.length).get? b = some none := by
    rw [nanmean_rows_get? _ _ _ hb, hzero]
    rfl
  have hS : (nanstd_rows sqrtQ (mat_log2_of tmpl im ((sid0, some tmpl) :: rest))
      tmpl.data.length).get? b = some none := by
    rw [nanstd_rows_get? sqrtQ _ _ _ hb, hzero]
    rfl
  have hff := flat_fallback_fallback_bin
    (nanmean_rows (mat_log2_of tmpl im ((sid0, some tmpl) :: rest)) tmpl.data.length)
    (nanmean_rows (mat_depth_of tmpl im ((sid0, some tmpl) :: rest)) tmpl.data.length)
    (nanstd_rows sqrtQ (mat_log2_of tmpl im ((sid0, some tmpl) :: rest)) tmpl.data.length)
    b (by simp [nanmean_rows]) hL hS
  exact ⟨hff.1, hff.2.1, hff.2.2, filterMap_id_nanmean_rows _ _⟩

/-- The depth matrix of the shared example run. -/
theorem exMatDepth_eval : mat_depth_of exA exMap exDict =
    [[some 2, some 4, none], [none, some 6, none]] := by
  unfold mat_depth_of
  rw [exOutcomes_eval]
  rfl

/-- The pre-fallback depth means of the shared example run. -/
theorem exDepthRows_eval : nanmean_rows (mat_depth_of exA exMap exDict) 3 =
    [some 2, some 5, none] := by
  rw [exMatDepth_eval]
  norm_num [nanmean_rows, nanmean, trusted, List.range, List.range.loop, List.filterMap]
  exact fun h => absurd h (List.cons_ne_nil _ _)

/-- Witness for C4 on the shared example: fallback bin 2 receives log2 `0`,
the global mean depth `7/2` and the global mean spread `1/4`. -/
theorem zero_trusted_bin_fallback_witness :
    (2 : ℕ) < exA.data.length ∧
    trusted (mat_log2_of exA exMap exDict) 2 = [] ∧
    exTable.log2.get? 2 = some (some 0) ∧
    exTable.depth.get? 2 = some (some (7 / 2)) ∧
    exTable.spread.get? 2 = some (some (1 / 4)) := by
  have hzero : trusted (mat_log2_of exA exMap exDict) 2 = [] := by
    rw [exMat_eval]
    rfl
  have h := zero_trusted_bin_fallback ratSqrt "A" exA [("B", some exB)] exMap exTable 2
    exBuild_eval (by decide) hzero
  have hdv : (nanmean ((nanmean_rows (mat_depth_of exA exMap exDict)
      exA.data.length).filterMap id)).getD 1 = 7 / 2 := by
    rw [show exA.data.length = 3 from rfl, exDepthRows_eval]
    norm_num [nanmean, List.filterMap]
  have hsv : (nanmean ((nanstd_rows ratSqrt (mat_log2_of exA exMap exDict)
      exA.data.length).filterMap id)).getD (1 / 10) = 1 / 4 := by
    rw [show exA.data.length = 3 from rfl, exSpread_eval]
    norm_num [nanmean, List.filterMap]
  exact ⟨by decide, hzero, h.1, by rw [← hdv]; exact h.2.1, by rw [← hsv]; exact h.2.2.1⟩

/-- An element of a `zipWith` comes from one index of both lists. -/
theorem zipWith_mem_elim {α β γ : Type} {f : α → β → γ} {as : List α} {bs : List β}
    {v : γ} (h : v ∈ List.zipWith f as bs) :
    ∃ i a b', as.get? i = some a ∧ bs.get? i = some b' ∧ v = f a b' := by
  rw [List.mem_iff_get?] at h
  obtain ⟨i, hi⟩ := h
  rw [List.get?_eq_getElem?, List.getElem?_zipWith] at hi
  cases ha : as[i]? with
  | none => rw [ha] at hi; exact absurd hi (by simp)
  | some a =>
    cases hb : bs[i]? with
    | none => rw [ha, hb] at hi; exact absurd hi (by simp)
    | some b' =>
      rw [ha, hb] at hi
      refine ⟨i, a, b', by rw [List.get?_eq_getElem?, ha], by rw [List.get?_eq_getElem?, hb], ?_⟩
      injection hi with hi
      exact hi.symm

/-- After the flat fallback, log2 and depth are defined everywhere (given
that a NaN depth or spread can only occur at a NaN-log2 bin, which holds by
construction of the matrices), and every spread entry is either the global
fallback spread or one of the defined pre-substitution spreads. -/
theorem flat_fallback_defined (L D S : List (Option ℚ))
    (hD : ∀ b, D.get? b = some none → L.get? b = some none)
    (hS : ∀ b, S.get? b = some none → L.get? b = some none) :
    (∀ v ∈ (flat_fallback L D S).1, v.isSome = true) ∧
    (∀ v ∈ (flat_fallback L D S).2.1, v.isSome = true) ∧
    (∀ v ∈ (flat_fallback L D S).2.2, ∃ q, v = some q ∧
      (q = (nanmean (S.filterMap id)).getD (1 / 10) ∨ some q ∈ S)) := by
  unfold flat_fallback
  dsimp only
  split_ifs with hc
  · refine ⟨?_, ?_, ?_⟩
    · intro v hv
      obtain ⟨i, a, b', ha, hb', rfl⟩ := zipWith_mem_elim hv
      by_cases hab : a <;> simp only [hab, if_true, if_false, Bool.false_eq_true]
      · rfl
      · rw [List.get?_map, hb'] at ha
        injection ha with ha
        cases b' with
        | none => simp at ha; exact absurd ha hab
        | some q => rfl
    · intro v hv
      obtain ⟨i, a, dv, ha, hdv, rfl⟩ := zipWith_mem_elim hv
      by_cases hab : a <;> simp only [hab, if_true, if_false, Bool.false_eq_true]
      · rfl
      · cases dv with
        | some q => rfl
        | none =>
          have hLn := hD i hdv
          rw [List.get?_map, hLn] at ha
          injection ha with ha
          exact absurd ha.symm hab
    · intro v hv
      obtain ⟨u, hu, rfl⟩ := List.mem_map.mp hv
      obtain ⟨i, a, sv, ha, hsv, rfl⟩ := zipWith_mem_elim hu
      by_cases hab : a <;> simp only [hab, if_true, if_false, Bool.false_eq_true]
      · exact ⟨_, rfl, Or.inl rfl⟩
      · cases sv with
        | none => exact ⟨_, rfl, Or.inl rfl⟩
        | some q => exact ⟨q, rfl, Or.inr (List.get?_mem hsv)⟩
  · have hnone : ∀ v ∈ L, v.isSome = true := by
      intro v hv
      cases v with
      | some q => rfl
      | none =>
        exfalso
        apply hc
        apply List.count_pos_iff.mpr
        exact List.mem_map.mpr ⟨none, hv, rfl⟩
    refine ⟨hnone, ?_, ?_⟩
    · intro v hv
      cases v with
      | some q => rfl
      | none =>
        rw [List.mem_iff_get?] at hv
        obtain ⟨b, hb⟩ := hv
        exact absurd (hnone none (List.get?_mem (hD b hb))) (by simp)
    · intro v hv
      cases v with
      | some q => exact ⟨q, rfl, Or.inr hv⟩
      | none =>
        rw [List.mem_iff_get?] at hv
        obtain ⟨b, hb⟩ := hv
        exact absurd (hnone none (List.get?_mem (hS b hb))) (by simp)

/-- The clamp floor makes every weight strictly positive. -/
theorem weight_of_pos (q : ℚ) : 0 < weight_of q := by
  unfold weight_of
  have h1 : (0 : ℚ) < max q (1 / 10000) :=
    lt_of_lt_of_le (by norm_num) (le_max_right _ _)
  positivity

/-- Claim C1 (amended): on every returned table, log2, depth, spread and
weight are defined (never NaN) in every bin, every weight is finite and
strictly positive, and every spread is finite and nonnegative.  The claim's
strict positivity of spread does not hold (see the counterexample): a bin
whose trusted log2 values are all equal gets spread exactly 0. -/
theorem reduction_output_defined (sqrtQ : ℚ → ℚ)
    (hsq : ∀ q : ℚ, 0 ≤ q → 0 ≤ sqrtQ q)
    (fd : List (String × Option Cnn)) (im : List (String × List String))
    (t : RefTable) (h : build_reference_matrix sqrtQ fd im = .ok t) :
    (∀ v ∈ t.log2, v.isSome = true) ∧
    (∀ v ∈ t.depth, v.isSome = true) ∧
    (∀ v ∈ t.spread, ∃ q, v = some q ∧ 0 ≤ q) ∧
    (∀ v ∈ t.weight, ∃ q, v = some q ∧ 0 < q) := by
  obtain ⟨sid0, tmpl, rest, rfl, hc, rfl⟩ := build_ok_elim h
  have hDn : ∀ b, (nanmean_rows (mat_depth_of tmpl im ((sid0, some tmpl) :: rest))
      tmpl.data.length).get? b = some none →
      (nanmean_rows (mat_log2_of tmpl im ((sid0, some tmpl) :: rest))
      tmpl.data.length).get? b = some none := by
    intro b hb
    have hblen : b < tmpl.data.length := by
      have h' := (List.get?_eq_some.mp hb).1
      simpa [nanmean_rows] using h'
    rw [nanmean_rows_get? _ _ _ hblen] at hb ⊢
    injection hb with hb
    rw [nanmean_eq_none_iff] at hb
    rw [(matrices_pattern tmpl im ((sid0, some tmpl) :: rest) b).mpr hb]
    rfl
  have hSn : ∀ b, (nanstd_rows sqrtQ (mat_log2_of tmpl im ((sid0, some tmpl) :: rest))
      tmpl.data.length).get? b = some none →
      (nanmean_rows (mat_log2_of tmpl im ((sid0, some tmpl) :: rest))
      tmpl.data.length).get? b = some none := by
    intro b hb
    have hblen : b < tmpl.data.length := by
      have h' := (List.get?_eq_some.mp hb).1
      simpa [nanstd_rows] using h'
    rw [nanstd_rows_get? _ _ _ _ hblen] at hb
    rw [nanmean_rows_get? _ _ _ hblen]
    injection hb with hb
    rw [nanstd_eq_none_iff] at hb
    rw [hb]
    rfl
  have hSvals : ∀ q : ℚ, some q ∈ nanstd_rows sqrtQ
      (mat_log2_of tmpl im ((sid0, some tmpl) :: rest)) tmpl.data.length → 0 ≤ q := by
    intro q hq
    rw [List.mem_iff_get?] at hq
    obtain ⟨b, hb⟩ := hq
    have hblen : b < tmpl.data.length := by
      have h' := (List.get?_eq_some.mp hb).1
      simpa [nanstd_rows] using h'
    rw [nanstd_rows_get? _ _ _ _ hblen] at hb
    injection hb with hb
    unfold nanstd at hb
    obtain ⟨w, hw, rfl⟩ := Option.map_eq_some'.mp hb
    exact hsq w (nanvar_nonneg _ w hw)
  have hd := flat_fallback_defined
    (nanmean_rows (mat_log2_of tmpl im ((sid0, some tmpl) :: rest)) tmpl.data.length)
    (nanmean_rows (mat_depth_of tmpl im ((sid0, some tmpl) :: rest)) tmpl.data.length)
    (nanstd_rows sqrtQ (mat_log2_of tmpl im ((sid0, some tmpl) :: rest)) tmpl.data.length)
    hDn hSn
  have hspread : ∀ v ∈ (assemble sqrtQ tmpl.data
      (sample_outcomes tmpl im ((sid0, some tmpl) :: rest))).spread,
      ∃ q, v = some q ∧ 0 ≤ q := by
    intro v hv
    obtain ⟨q, rfl, hq⟩ := hd.2.2 v hv
    refine ⟨q, rfl, ?_⟩
    rcases hq with hq | hq
    · subst hq
      cases hnm : nanmean ((nanstd_rows sqrtQ (mat_log2_of tmpl im
          ((sid0, some tmpl) :: rest)) tmpl.data.length).filterMap id) with
      | none => norm_num
      | some m =>
        simp only [Option.getD_some]
        refine nanmean_nonneg _ m ?_ hnm
        intro x hx
        obtain ⟨a, ha, ha'⟩ := List.mem_filterMap.mp hx
        exact hSvals x (by rw [show a = some x from ha'] at ha; exact ha)
    · exact hSvals q hq
  refine ⟨hd.1, hd.2.1, hspread, ?_⟩
  intro v hv
  obtain ⟨u, hu, rfl⟩ := List.mem_map.mp hv
  obtain ⟨q, rfl, _⟩ := hspread u hu
  exact ⟨weight_of q, rfl, weight_of_pos q⟩

/-- Second sample for the C1 counterexample: same log2 value as `c5A`. -/
def c1B : Cnn := ⟨[⟨"chr1", 0, 100, 5, 4⟩]⟩

/-- The output on `c5A`/`c1B`: both samples trusted at the single bin with
equal log2 values, so the population standard deviation is exactly 0. -/
def c1Table : RefTable :=
  ⟨["chr1"], [0], [100], [some 5], [some 3], [some 0], [some 100000000]⟩

/-- Counterexample to claim C1 as stated: a returned table whose spread is
exactly 0 (not strictly positive) at a bin with two equal trusted log2
values; the weight is clamped to `1/(1e-4)^2`. -/
theorem spread_zero_possible :
    build_reference_matrix ratSqrt [("A", some c5A), ("B", some c1B)]
      [("A", ["chr1"]), ("B", ["chr1"])] = .ok c1Table ∧
    c1Table.spread = [some 0] := by
  have houtcomes : sample_outcomes c5A [("A", ["chr1"]), ("B", ["chr1"])]
      [("A", some c5A), ("B", some c1B)] =
      [.loaded [some 5] [some 2], .loaded [some 5] [some 4]] := by
    simp +decide [sample_outcomes, process_sample, template_chroms_of, validate_compatibility,
      mask, c5A, c1B, normalize_chrom, List.lookup]
  refine ⟨?_, rfl⟩
  rw [build_reference_matrix.eq_def]
  dsimp only
  rw [show sample_outcomes c5A [("A", ["chr1"]), ("B", ["chr1"])]
      [("A", some c5A), ("B", some c1B)] =
      [.loaded [some 5] [some 2], .loaded [some 5] [some 4]] from houtcomes]
  norm_num +decide [assemble, flat_fallback, nanmean_rows, nanstd_rows, nanmean, nanvar, nanstd,
    trusted, recalculate_weights, weight_of, ratSqrt_zero, c5A, c1Table,
    SampleOutcome.log2col, SampleOutcome.depthcol, SampleOutcome.isLoaded,
    List.range, List.range.loop, List.filter, List.filterMap]

/-- Witness for C1 (amended) on the shared example run. -/
theorem reduction_output_defined_witness :
    build_reference_matrix ratSqrt exDict exMap = .ok exTable ∧
    (∀ v ∈ exTable.log2, v.isSome = true) ∧
    (∀ v ∈ exTable.depth, v.isSome = true) ∧
    (∀ v ∈ exTable.spread, ∃ q, v = some q ∧ 0 ≤ q) ∧
    (∀ v ∈ exTable.weight, ∃ q, v = some q ∧ 0 < q) :=
  ⟨exBuild_eval, reduction_output_defined ratSqrt (fun q _ => ratSqrt_nonneg q)
    exDict exMap exTable exBuild_eval⟩

/-- Writing back the element already at an index is the identity. -/
theorem set_get?_self {α : Type} : ∀ (l : List α) (i : ℕ) (a : α),
    l.get? i = some a → l.set i a = l := by
  intro l
  induction l with
  | nil => intro i a h; simp at h
  | cons x xs ih =>
    intro i a h
    cases i with
    | zero =>
      simp only [List.get?] at h
      injection h with h
      rw [List.set]
      rw [h]
    | succ j =>
      simp only [List.get?] at h
      rw [List.set]
      rw [ih j a h]

/-- `replace_values`: the same bin structure with arbitrary new log2 and
depth values (row-wise functions of the old row). -/
def replace_values (c : Cnn) (g₁ g₂ : CnnRow → ℚ) : Cnn :=
  ⟨c.data.map (fun r => { r with log2 := g₁ r, depth := g₂ r })⟩

/-- Value replacement preserves the bin count. -/
theorem replace_values_length (c : Cnn) (g₁ g₂ : CnnRow → ℚ) :
    (replace_values c g₁ g₂).data.length = c.data.length := by
  simp [replace_values]

/-- Value replacement preserves the first bin's start. -/
theorem replace_values_head_start (c : Cnn) (g₁ g₂ : CnnRow → ℚ) :
    (replace_values c g₁ g₂).data.head?.map (·.start) = c.data.head?.map (·.start) := by
  rw [show (replace_values c g₁ g₂).data =
    c.data.map (fun r => { r with log2 := g₁ r, depth := g₂ r }) from rfl,
    List.head?_map, Option.map_map]
  cases c.data.head? <;> rfl

/-- Value replacement preserves the last bin's end. -/
theorem replace_values_getLast_stop (c : Cnn) (g₁ g₂ : CnnRow → ℚ) :
    (replace_values c g₁ g₂).data.getLast?.map (·.stop) = c.data.getLast?.map (·.stop) := by
  rw [show (replace_values c g₁ g₂).data =
    c.data.map (fun r => { r with log2 := g₁ r, depth := g₂ r }) from rfl,
    List.getLast?_map, Option.map_map]
  cases c.data.getLast? <;> rfl

/-- Value replacement preserves the normalized chromosome vector. -/
theorem replace_values_chroms (c : Cnn) (g₁ g₂ : CnnRow → ℚ) :
    template_chroms_of (replace_values c g₁ g₂) = template_chroms_of c := by
  unfold template_chroms_of
  rw [show (replace_values c g₁ g₂).data =
    c.data.map (fun r => { r with log2 := g₁ r, depth := g₂ r }) from rfl,
    List.map_map]
  rfl

/-- The validator as a flat conditional over the three quantities it reads:
bin counts, first starts, last stops (plus the empty-frame index error). -/
theorem validate_eq_spec (t n : List CnnRow) (s : String) :
    validate_compatibility t n s =
      (if t.length ≠ n.length then .error (.binCountMismatch t.length n.length s)
       else if t.length = 0 then .error (.indexError s)
       else if t.head?.map (·.start) ≠ n.head?.map (·.start) ∨
         t.getLast?.map (·.stop) ≠ n.getLast?.map (·.stop) then
         .error (.coordinateMismatch s)
       else .ok ()) := by
  by_cases hlen : t.length = n.length
  · by_cases hz : t.length = 0
    · have ht : t = [] := List.length_eq_zero.mp hz
      have hn : n = [] := List.length_eq_zero.mp (by omega)
      subst ht hn
      rfl
    · have ht : t ≠ [] := fun h => hz (by simp [h])
      have hn : n ≠ [] := fun h => hz (by rw [hlen, h]; rfl)
      rw [if_neg (by omega), if_neg hz]
      unfold validate_compatibility
      rw [if_neg (by omega)]
      rw [List.head?_eq_head ht, List.head?_eq_head hn,
        List.getLast?_eq_getLast t ht, List.getLast?_eq_getLast n hn]
      simp only [Option.map_some']
      by_cases hb : (t.head ht).start ≠ (n.head hn).start ∨
          (t.getLast ht).stop ≠ (n.getLast hn).stop
      · rw [if_pos hb, if_pos (by simpa using hb)]
      · rw [if_neg hb, if_neg (by simpa using hb)]
  · unfold validate_compatibility
    rw [if_pos (by omega), if_pos (by omega)]

/-- Frames agreeing in bin count, first start and last stop validate
identically against frames likewise agreeing. -/
theorem validate_congr (t t' n n' : List CnnRow) (s : String)
    (hlt : t'.length = t.length) (hln : n'.length = n.length)
    (hht : t'.head?.map (·.start) = t.head?.map (·.start))
    (hhn : n'.head?.map (·.start) = n.head?.map (·.start))
    (hgt : t'.getLast?.map (·.stop) = t.getLast?.map (·.stop))
    (hgn : n'.getLast?.map (·.stop) = n.getLast?.map (·.stop)) :
    validate_compatibility t' n' s = validate_compatibility t n s := by
  rw [validate_eq_spec, validate_eq_spec, hlt, hln, hht, hhn, hgt, hgn]

theorem validate_ok_length (t n : List CnnRow) (s : String)
    (h : validate_compatibility t n s = .ok ()) : t.length = n.length := by
  rw [validate_eq_spec] at h
  by_cases hlen : t.length = n.length
  · exact hlen
  · rw [if_pos (by omega)] at h
    exact absurd h (by simp)

theorem template_chroms_length (t : Cnn) :
    (template_chroms_of t).length = t.data.length := by
  simp [template_chroms_of]

/-- A mask over an allow-list disjoint from the chromosome vector is all
NaN. -/
theorem mask_disjoint (chroms allowed : List String) (vals : List ℚ)
    (hdis : ∀ c ∈ chroms, c ∉ allowed) (hlen : vals.length = chroms.length) :
    mask chroms allowed vals = List.replicate chroms.length none := by
  unfold mask
  induction chroms generalizing vals with
  | nil => simp
  | cons c cs ih =>
    cases vals with
    | nil => simp at hlen
    | cons v vs =>
      rw [List.zipWith_cons_cons, if_neg (hdis c (by simp)), List.length_cons,
        List.replicate_succ]
      congr 1
      exact ih vs (fun c' hc' => hdis c' (by simp [hc'])) (by simpa using hlen)

/-- Replacing the template's log2/depth values (same bin structure) does not
change any other sample's processing. -/
theorem process_sample_template_congr (t t' : Cnn)
    (im : List (String × List String)) (sid : String) (od : Option Cnn)
    (hct : template_chroms_of t' = template_chroms_of t)
    (hlt : t'.data.length = t.data.length)
    (hht : t'.data.head?.map (·.start) = t.data.head?.map (·.start))
    (hgt : t'.data.getLast?.map (·.stop) = t.data.getLast?.map (·.stop)) :
    process_sample t'.data (template_chroms_of t') im sid od =
    process_sample t.data (template_chroms_of t) im sid od := by
  unfold process_sample
  cases od with
  | none => rfl
  | some curr =>
    dsimp only
    rw [validate_congr t.data t'.data curr.data curr.data sid hlt rfl hht rfl hgt rfl, hct]

/-- Processing a sample whose allow-list is empty or disjoint from the
template's chromosomes gives the same outcome when its values (and possibly
the template's values) are replaced, keeping bin structures. -/
theorem process_sample_replace_congr (t t' curr curr' : Cnn)
    (im : List (String × List String)) (sid : String)
    (hct : template_chroms_of t' = template_chroms_of t)
    (hlt : t'.data.length = t.data.length)
    (hht : t'.data.head?.map (·.start) = t.data.head?.map (·.start))
    (hgt : t'.data.getLast?.map (·.stop) = t.data.getLast?.map (·.stop))
    (hlc : curr'.data.length = curr.data.length)
    (hhc : curr'.data.head?.map (·.start) = curr.data.head?.map (·.start))
    (hgc : curr'.data.getLast?.map (·.stop) = curr.data.getLast?.map (·.stop))
    (hA : ((im.lookup sid).getD []).map normalize_chrom = [] ∨
      ∀ c ∈ template_chroms_of t, c ∉ ((im.lookup sid).getD []).map normalize_chrom) :
    process_sample t'.data (template_chroms_of t') im sid (some curr') =
    process_sample t.data (template_chroms_of t) im sid (some curr) := by
  unfold process_sample
  dsimp only
  rw [validate_congr t.data t'.data curr.data curr'.data sid hlt hlc hht hhc hgt hgc, hct]
  cases hres : validate_compatibility t.data curr.data sid with
  | error e => rfl
  | ok u =>
    dsimp only
    split_ifs with ha
    · rfl
    · rcases hA with hA | hA
      · exact absurd (by simp [hA]) ha
      · have hok := validate_ok_length _ _ _ (by cases u; exact hres)
        have hm : ∀ vals : List ℚ, vals.length = t.data.length →
            mask (template_chroms_of t)
              (((im.lookup sid).getD []).map normalize_chrom) vals =
            List.replicate (template_chroms_of t).length none := by
          intro vals hv
          exact mask_disjoint _ _ vals hA (by rw [hv, template_chroms_length])
        rw [hm (curr'.data.map (·.log2)) (by simp [hlc, ← hok]),
          hm (curr'.data.map (·.depth)) (by simp [hlc, ← hok]),
          hm (curr.data.map (·.log2)) (by simp [← hok]),
          hm (curr.data.map (·.depth)) (by simp [← hok])]

/-- The assembled table only reads the template's coordinates, which value
replacement preserves. -/
theorem assemble_replace (sqrtQ : ℚ → ℚ) (d : Cnn) (g₁ g₂ : CnnRow → ℚ)
    (outs : List SampleOutcome) :
    assemble sqrtQ (replace_values d g₁ g₂).data outs = assemble sqrtQ d.data outs := by
  have hchrom : (replace_values d g₁ g₂).data.map (·.chromosome) =
      d.data.map (·.chromosome) := by
    rw [show (replace_values d g₁ g₂).data =
      d.data.map (fun r => { r with log2 := g₁ r, depth := g₂ r }) from rfl, List.map_map]
    rfl
  have hstart : (replace_values d g₁ g₂).data.map (·.start) = d.data.map (·.start) := by
    rw [show (replace_values d g₁ g₂).data =
      d.data.map (fun r => { r with log2 := g₁ r, depth := g₂ r }) from rfl, List.map_map]
    rfl
  have hstop : (replace_values d g₁ g₂).data.map (·.stop) = d.data.map (·.stop) := by
    rw [show (replace_values d g₁ g₂).data =
      d.data.map (fun r => { r with log2 := g₁ r, depth := g₂ r }) from rfl, List.map_map]
    rfl
  unfold assemble
  dsimp only
  rw [replace_values_length, hchrom, hstart, hstop]

/-- Claim C9: a sample whose inclusion-map entry is empty or absent, or
whose allowed chromosomes match no chromosome of the template, contributes
to no bin: both its matrix columns stay all NaN whatever its data; in the
no-matching-chromosome case its processing raises no error when the file
validates; and the whole output is unchanged when its raw log2/depth values
are replaced arbitrarily (keeping the bin structure), even when the sample
is the template itself. -/
theorem excluded_sample_contributes_nothing (sqrtQ : ℚ → ℚ) (sid0 : String) (tmpl : Cnn)
    (rest : List (String × Option Cnn)) (im : List (String × List String))
    (i : ℕ) (sid : String) (d : Cnn) (g₁ g₂ : CnnRow → ℚ)
    (hget : ((sid0, some tmpl) :: rest).get? i = some (sid, some d))
    (hA : ((im.lookup sid).getD []).map normalize_chrom = [] ∨
      ∀ c ∈ template_chroms_of tmpl, c ∉ ((im.lookup sid).getD []).map normalize_chrom) :
    (∀ od : Option Cnn,
      (process_sample tmpl.data (template_chroms_of tmpl) im sid od).log2col
        tmpl.data.length = List.replicate tmpl.data.length none ∧
      (process_sample tmpl.data (template_chroms_of tmpl) im sid od).depthcol
        tmpl.data.length = List.replicate tmpl.data.length none) ∧
    (validate_compatibility tmpl.data d.data sid = .ok () →
      process_sample tmpl.data (template_chroms_of tmpl) im sid (some d) ≠ .failed) ∧
    build_reference_matrix sqrtQ ((sid0, some tmpl) :: rest) im =
      build_reference_matrix sqrtQ
        (((sid0, some tmpl) :: rest).set i (sid, some (replace_values d g₁ g₂))) im := by
  have hcols : ∀ od : Option Cnn,
      (process_sample tmpl.data (template_chroms_of tmpl) im sid od).log2col
        tmpl.data.length = List.replicate tmpl.data.length none ∧
      (process_sample tmpl.data (template_chroms_of tmpl) im sid od).depthcol
        tmpl.data.length = List.replicate tmpl.data.length none := by
    intro od
    unfold process_sample
    cases od with
    | none => exact ⟨rfl, rfl⟩
    | some curr =>
      dsimp only
      cases hres : validate_compatibility tmpl.data curr.data sid with
      | error e => exact ⟨rfl, rfl⟩
      | ok u =>
        split_ifs with ha
        · exact ⟨rfl, rfl⟩
        · rcases hA with hA | hA
          · exact absurd (by simp [hA]) ha
          · have hok := validate_ok_length _ _ _ (by cases u; exact hres)
            constructor
            · show mask (template_chroms_of tmpl) _ (curr.data.map (·.log2)) = _
              rw [mask_disjoint _ _ _ hA (by simp [← hok, template_chroms_length]),
                template_chroms_length]
            · show mask (template_chroms_of tmpl) _ (curr.data.map (·.depth)) = _
              rw [mask_disjoint _ _ _ hA (by simp [← hok, template_chroms_length]),
                template_chroms_length]
  have hnofail : validate_compatibility tmpl.data d.data sid = .ok () →
      process_sample tmpl.data (template_chroms_of tmpl) im sid (some d) ≠ .failed := by
    intro hv
    unfold process_sample
    dsimp only
    rw [hv]
    split_ifs <;> simp
  refine ⟨hcols, hnofail, ?_⟩
  cases i with
  | zero =>
    rw [List.get?_cons_zero] at hget
    injection hget with hget
    rw [Prod.mk.injEq] at hget
    obtain ⟨h1, h2⟩ := hget
    injection h2 with h2
    subst h1
    subst h2
    rw [show ((sid0, some tmpl) :: rest).set 0 (sid0, some (replace_values tmpl g₁ g₂)) =
      (sid0, some (replace_values tmpl g₁ g₂)) :: rest from rfl]
    have houts : sample_outcomes (replace_values tmpl g₁ g₂) im
        ((sid0, some (replace_values tmpl g₁ g₂)) :: rest) =
        sample_outcomes tmpl im ((sid0, some tmpl) :: rest) := by
      unfold sample_outcomes
      rw [List.map_cons, List.map_cons]
      congr 1
      · exact process_sample_replace_congr tmpl (replace_values tmpl g₁ g₂) tmpl
          (replace_values tmpl g₁ g₂) im sid0
          (replace_values_chroms tmpl g₁ g₂) (replace_values_length tmpl g₁ g₂)
          (replace_values_head_start tmpl g₁ g₂) (replace_values_getLast_stop tmpl g₁ g₂)
          (replace_values_length tmpl g₁ g₂) (replace_values_head_start tmpl g₁ g₂)
          (replace_values_getLast_stop tmpl g₁ g₂) hA
      · exact List.map_congr_left fun p _ =>
          process_sample_template_congr tmpl (replace_values tmpl g₁ g₂) im p.1 p.2
            (replace_values_chroms tmpl g₁ g₂) (replace_values_length tmpl g₁ g₂)
            (replace_values_head_start tmpl g₁ g₂) (replace_values_getLast_stop tmpl g₁ g₂)
    have hb1 : build_reference_matrix sqrtQ ((sid0, some tmpl) :: rest) im =
        (if ((sample_outcomes tmpl im ((sid0, some tmpl) :: rest)).filter
            (·.isLoaded)).length = 0
         then .error .noValidSamples
         else .ok (assemble sqrtQ tmpl.data
           (sample_outcomes tmpl im ((sid0, some tmpl) :: rest)))) := rfl
    have hb2 : build_reference_matrix sqrtQ
        ((sid0, some (replace_values tmpl g₁ g₂)) :: rest) im =
        (if ((sample_outcomes (replace_values tmpl g₁ g₂) im
            ((sid0, some (replace_values tmpl g₁ g₂)) :: rest)).filter
            (·.isLoaded)).length = 0
         then .error .noValidSamples
         else .ok (assemble sqrtQ (replace_values tmpl g₁ g₂).data
           (sample_outcomes (replace_values tmpl g₁ g₂) im
             ((sid0, some (replace_values tmpl g₁ g₂)) :: rest)))) := rfl
    rw [hb1, hb2, houts, assemble_replace]
  | succ j =>
    have hget' : rest.get? j = some (sid, some d) := by
      simpa using hget
    rw [show ((sid0, some tmpl) :: rest).set (j + 1) (sid, some (replace_values d g₁ g₂)) =
      (sid0, some tmpl) :: rest.set j (sid, some (replace_values d g₁ g₂)) from rfl]
    have houts : sample_outcomes tmpl im
        ((sid0, some tmpl) :: rest.set j (sid, some (replace_values d g₁ g₂))) =
        sample_outcomes tmpl im ((sid0, some tmpl) :: rest) := by
      unfold sample_outcomes
      rw [List.map_cons, List.map_cons, List.map_set]
      congr 1
      have hFe : process_sample tmpl.data (template_chroms_of tmpl) im sid
          (some (replace_values d g₁ g₂)) =
          process_sample tmpl.data (template_chroms_of tmpl) im sid (some d) :=
        process_sample_replace_congr tmpl tmpl d (replace_values d g₁ g₂) im sid
          rfl rfl rfl rfl (replace_values_length d g₁ g₂)
          (replace_values_head_start d g₁ g₂) (replace_values_getLast_stop d g₁ g₂) hA
      rw [show ((sid, some (replace_values d g₁ g₂)) :
          String × Option Cnn).2 = some (replace_values d g₁ g₂) from rfl]
      rw [hFe]
      apply set_get?_self
      rw [List.get?_map, hget']
      rfl
    have hb1 : build_reference_matrix sqrtQ ((sid0, some tmpl) :: rest) im =
        (if ((sample_outcomes tmpl im ((sid0, some tmpl) :: rest)).filter
            (·.isLoaded)).length = 0
         then .error .noValidSamples
         else .ok (assemble sqrtQ tmpl.data
           (sample_outcomes tmpl im ((sid0, some tmpl) :: rest)))) := rfl
    have hb2 : build_reference_matrix sqrtQ
        ((sid0, some tmpl) :: rest.set j (sid, some (replace_values d g₁ g₂))) im =
        (if ((sample_outcomes tmpl im ((sid0, some tmpl) ::
            rest.set j (sid, some (replace_values d g₁ g₂)))).filter
            (·.isLoaded)).length = 0
         then .error .noValidSamples
         else .ok (assemble sqrtQ tmpl.data
           (sample_outcomes tmpl im ((sid0, some tmpl) ::
             rest.set j (sid, some (replace_values d g₁ g₂)))))) := rfl
    rw [hb1, hb2, houts]

/-- Witness for C9: on the one-sample run whose allow-list names only
`chr9`, the column is all NaN, no error arises and replacing the raw values
leaves the output unchanged. -/
theorem excluded_sample_contributes_nothing_witness :
    (([("A", some c5A)] : List (String × Option Cnn)).get? 0 = some ("A", some c5A)) ∧
    (process_sample c5A.data (template_chroms_of c5A) [("A", ["chr9"])] "A"
      (some c5A)).log2col c5A.data.length = List.replicate c5A.data.length none ∧
    process_sample c5A.data (template_chroms_of c5A) [("A", ["chr9"])] "A"
      (some c5A) ≠ .failed ∧
    build_reference_matrix ratSqrt [("A", some c5A)] [("A", ["chr9"])] =
      build_reference_matrix ratSqrt
        ([("A", some c5A)].set 0 ("A", some (replace_values c5A (fun _ => 99) (fun _ => 77))))
        [("A", ["chr9"])] := by
  have h := excluded_sample_contributes_nothing ratSqrt "A" c5A [] [("A", ["chr9"])]
    0 "A" c5A (fun _ => 99) (fun _ => 77) rfl (Or.inr (by decide))
  exact ⟨rfl, (h.1 (some c5A)).1, h.2.1 (by decide), h.2.2⟩
